import Mathlib

/-!
Verification of the session/extraction core of the discord-mcp repository.

The Python sources (src/discord_mcp/client.py, client_backup.py, server.py,
messages.py) are shallowly embedded here:

* Strings are Lean `String`s, manipulated through explicit `List Char`
  helpers so that everything kernel-evaluates; Python `str` comparison is
  code-point lexicographic and is modelled by `charListLt`.
* `datetime` values are modelled as `Int` UTC epoch seconds: comparison of
  timezone-aware datetimes is comparison of the instants they denote, and
  `timedelta(hours=h)` is `h * 3600` seconds.  Parsing of an ISO-8601
  `datetime` attribute is abstracted to the instant it denotes (an
  `Option Int` field on the scraped element).
* Playwright page interactions are modelled by explicit input data (the
  element lists the DOM queries return, the URL, selector-query outcomes)
  plus traces of the browser actions the code performs; an `async` call that
  can raise is modelled by a `Bool` outcome flag, and Python `try/except`
  blocks become explicit branches on those flags.
-/

namespace DiscordMCP

/-! ## Python/JS string primitives -/

/-- Python / JS lexicographic string order on code points (`str.__lt__`). -/
def charListLt : List Char → List Char → Bool
  | [], [] => false
  | [], _ :: _ => true
  | _ :: _, [] => false
  | a :: as, b :: bs =>
    if a.toNat < b.toNat then true
    else if b.toNat < a.toNat then false
    else charListLt as bs

/-- Python `a < b` on strings. -/
def pyStrLt (a b : String) : Bool := charListLt a.toList b.toList

/-- Substring test over character lists (helper for `strContains`). -/
def charsContain (pat : List Char) : List Char → Bool
  | [] => pat.isEmpty
  | c :: rest => pat.isPrefixOf (c :: rest) || charsContain pat rest

/-- Python `pat in s` / JS `s.includes(pat)`. -/
def strContains (s pat : String) : Bool := charsContain pat.toList s.toList

/-- Python `s.startswith(pat)` / JS `s.startsWith(pat)`. -/
def strStartsWith (s pat : String) : Bool := pat.toList.isPrefixOf s.toList

/-- Strip leading and trailing whitespace (Python `str.strip()`, JS `trim()`). -/
def trimChars (l : List Char) : List Char :=
  ((l.dropWhile Char.isWhitespace).reverse.dropWhile Char.isWhitespace).reverse

/-- Python `s.strip()` / JS `s.trim()`. -/
def strTrim (s : String) : String := String.mk (trimChars s.toList)

/-- Remove every (non-overlapping, left-to-right) occurrence of `pat`
(Python `s.replace(pat, "")`, JS `s.replace(patRegex, '')` with a global
regex for a literal pattern).  `fuel` makes the recursion structural; every
(non-trivial) step consumes at least one character, so any fuel of at least
the list's length gives the fuel-free behaviour. -/
def removeAllGo (pat : List Char) : Nat → List Char → List Char
  | _, [] => []
  | 0, l => l
  | fuel + 1, c :: rest =>
    if pat ≠ [] ∧ pat.isPrefixOf (c :: rest) then
      removeAllGo pat fuel ((c :: rest).drop pat.length)
    else
      c :: removeAllGo pat fuel rest

/-- Python `s.replace(pat, "")`. -/
def strRemoveAll (s pat : String) : String :=
  String.mk (removeAllGo pat.toList s.toList.length s.toList)

/-- Collapse every whitespace run to a single space
(JS `s.replace(/\s+/g, ' ')`); `prevWs` records whether the previous
character was part of a whitespace run already emitted. -/
def collapseWsGo (prevWs : Bool) : List Char → List Char
  | [] => []
  | c :: rest =>
    if c.isWhitespace then
      (if prevWs then [] else [' ']) ++ collapseWsGo true rest
    else
      c :: collapseWsGo false rest

/-- JS `s.replace(/\s+/g, ' ')`. -/
def collapseWs (s : String) : String := String.mk (collapseWsGo false s.toList)

/-- Python truthiness of an optional string (`None` and `""` are falsy). -/
def optStrTruthy : Option String → Bool
  | none => false
  | some s => s ≠ ""

/-- Python `o or d` for an optional string `o`. -/
def pyOrStr (o : Option String) (d : String) : String :=
  match o with
  | some s => if s = "" then d else s
  | none => d

/-! ## Regex models

The extraction code uses a handful of fixed regular expressions; each is
modelled by a leftmost-match scanner with maximal (greedy) digit runs,
exactly as the JS regex engine behaves on these patterns. -/

/-- Match the JS regex `\/channels\/([0-9]+)\/([0-9]+)` exactly at the head
of the character list, returning the two capture groups. -/
def channelsUrlMatchHere (l : List Char) : Option (String × String) :=
  let pat := "/channels/".toList
  if pat.isPrefixOf l then
    let rest := l.drop pat.length
    let d1 := rest.takeWhile Char.isDigit
    let r1 := rest.dropWhile Char.isDigit
    if d1 = [] then none
    else
      match r1 with
      | '/' :: r2 =>
        let d2 := r2.takeWhile Char.isDigit
        if d2 = [] then none else some (String.mk d1, String.mk d2)
      | _ => none
  else none

/-- Leftmost application of `channelsUrlMatchHere`
(JS `href.match(/\/channels\/([0-9]+)\/([0-9]+)/)`). -/
def channelsUrlScan : List Char → Option (String × String)
  | [] => none
  | c :: rest =>
    match channelsUrlMatchHere (c :: rest) with
    | some r => some r
    | none => channelsUrlScan rest

/-- JS `href.match(/\/channels\/([0-9]+)\/([0-9]+)/)`, giving the
(guild id, channel id) capture groups of the leftmost match. -/
def matchChannelsUrl (href : String) : Option (String × String) :=
  channelsUrlScan href.toList

/-- JS `window.location.href.match(/\/channels\/${guildId}\/([0-9]+)/)` at
client.py line 369.  The snippet is built with a Python f-string, so the JS
engine receives `${guildId}` verbatim inside a regex literal — regex
literals perform no template interpolation.  There `$` is the end-of-input
assertion (no `m` flag) and `{guildId}` is literal text (an invalid
quantifier brace, hence literal), so a match would require characters after
the end of the input: the regex matches no string and the call always
returns null. -/
def matchCurrentChannel (guildId url : String) : Option String :=
  let _unusedGuildId := guildId
  let _unusedUrl := url
  none

/-- Match `#([^|]+)` exactly at the head of the list. -/
def titleMatchHere : List Char → Option String
  | [] => none
  | c :: rest =>
    if c = '#' then
      let t := rest.takeWhile (fun x => x ≠ '|')
      if t = [] then none else some (String.mk t)
    else none

/-- JS `document.title.match(/#([^|]+)/)`: leftmost match, greedy group. -/
def titleChannelScan : List Char → Option String
  | [] => none
  | c :: rest =>
    match titleMatchHere (c :: rest) with
    | some r => some r
    | none => titleChannelScan rest

/-- Membership of a character in the JS class `[a-zA-Z0-9#-_]`.  Note that
`#-_` is the code-point range 35..95 (which already contains `A-Z`, `0-9`
and various punctuation); the class is therefore lowercase letters plus the
code points 35..95. -/
def channelNameKeptChar (c : Char) : Bool :=
  (97 ≤ c.toNat && c.toNat ≤ 122) || (35 ≤ c.toNat && c.toNat ≤ 95)

/-- The channel display-name cleanup shared by both implementations:
`(element.textContent?.trim() || '')`, then
`.replace(/^[^a-zA-Z0-9#-_]+/, '').trim()`, then
`.replace(/\s+/g, ' ').trim()`. -/
def cleanChannelName (text : Option String) : String :=
  let t0 := strTrim (text.getD "")
  let t1 := strTrim (String.mk ((t0.toList).dropWhile (fun c => !channelNameKeptChar c)))
  strTrim (collapseWs t1)

/-! ## Data model (client.py dataclasses) -/

/-- client.py `DiscordMessage` (timestamps as UTC epoch seconds). -/
structure DiscordMessage where
  id : String
  content : String
  author_name : String
  author_id : String
  channel_id : String
  timestamp : Int
  attachments : List String
deriving Repr, DecidableEq

/-- client.py `DiscordChannel`. -/
structure DiscordChannel where
  id : String
  name : String
  type : Nat
  guild_id : Option String
deriving Repr, DecidableEq

/-- client.py `DiscordGuild`. -/
structure DiscordGuild where
  id : String
  name : String
  icon : Option String
deriving Repr, DecidableEq

/-! ## Channel extraction

`get_guild_channels` runs a JS snippet over the rendered DOM.  An anchor
element (`a[href*="/channels/"]`) is modelled by its resolved `href` and its
`textContent` (`none` models a null `textContent`). -/

/-- A DOM anchor element as observed by the channel-extraction JS. -/
structure Anchor where
  href : String
  text : Option String
deriving Repr, DecidableEq

/-- An `{id, name}` record pushed by the extraction JS. -/
structure ChannelData where
  id : String
  name : String
deriving Repr, DecidableEq

/-- The anchor loop of client.py `get_guild_channels` (lines 382-410): match
each href against `\/channels\/([0-9]+)\/([0-9]+)`, keep first-seen channel
ids, clean the name, and push only when the cleaned name is nonempty and
free of the substring "undefined". -/
def scanAnchorsCurrent (guildId : String) : List Anchor → List String → List ChannelData
  | [], _ => []
  | a :: rest, seen =>
    match matchChannelsUrl a.href with
    | some (g, cid) =>
      if g = guildId then
        if cid ∈ seen then scanAnchorsCurrent guildId rest seen
        else
          let seen2 := cid :: seen
          let nm := cleanChannelName a.text
          if nm ≠ "" ∧ strContains nm "undefined" = false then
            { id := cid, name := nm } :: scanAnchorsCurrent guildId rest seen2
          else scanAnchorsCurrent guildId rest seen2
      else scanAnchorsCurrent guildId rest seen
    | none => scanAnchorsCurrent guildId rest seen

/-- client.py `get_guild_channels` extraction (lines 363-425): the
currently-open-channel push (lines 369-380) runs first, but it is dead code
because its regex never matches (see `matchCurrentChannel`); then the anchor
scan runs with an initially empty seen-set; finally each record becomes a
`DiscordChannel` with type 0 and the requested guild id.  The
navigation/wait steps preceding the extraction are not modelled; the wrapper
raises before this point unless the URL contains `/channels/<gid>`. -/
def getGuildChannelsCurrent (guildId currentUrl title : String)
    (anchors : List Anchor) : List DiscordChannel :=
  let currentPart : List ChannelData :=
    match matchCurrentChannel guildId currentUrl with
    | some cid =>
      let nm :=
        match titleChannelScan title.toList with
        | some t => strTrim t
        | none => "unknown-channel"
      [{ id := cid, name := nm }]
    | none => []
  let scanned := scanAnchorsCurrent guildId anchors []
  (currentPart ++ scanned).map
    (fun cd => { id := cd.id, name := cd.name, type := 0, guild_id := some guildId })

/-- The anchor loop shared by both JS snippets of client_backup.py
`get_guild_channels` (lines 293-323 and 568-601): same matching and
first-seen dedup, but an empty cleaned name is replaced by the fallback
`channel-<id>` and the record is always pushed. -/
def scanAnchorsBackup (guildId : String) : List Anchor → List String → List ChannelData
  | [], _ => []
  | a :: rest, seen =>
    match matchChannelsUrl a.href with
    | some (g, cid) =>
      if g = guildId then
        if cid ∈ seen then scanAnchorsBackup guildId rest seen
        else
          let seen2 := cid :: seen
          let nm0 := cleanChannelName a.text
          let nm := if nm0 = "" then "channel-" ++ cid else nm0
          { id := cid, name := nm } :: scanAnchorsBackup guildId rest seen2
      else scanAnchorsBackup guildId rest seen
    | none => scanAnchorsBackup guildId rest seen

/-- client_backup.py `get_guild_channels` (lines 279-644): scan the anchors
visible before the Browse-Channels interaction, scan again afterwards, then
keep all original records plus the browse records whose id is not already
present (lines 619-629; the `all_channels_dict` built at lines 608-617 is
dead code and is not modelled). -/
def getGuildChannelsBackup (guildId : String)
    (originalAnchors browseAnchors : List Anchor) : List DiscordChannel :=
  let orig := scanAnchorsBackup guildId originalAnchors []
  let browse := scanAnchorsBackup guildId browseAnchors []
  let combined :=
    orig ++ browse.filter (fun cd => decide (cd.id ∉ orig.map (fun ch => ch.id)))
  combined.map
    (fun cd => { id := cd.id, name := cd.name, type := 0, guild_id := some guildId })

/-! ## Message extraction

A rendered message element is modelled by the outcome of each DOM query the
extraction code performs on it.  A selector-text field is `none` when the
selector matches no element (a null `textContent` behaves like `""` in every
use below, so the two are identified). -/

/-- A message element inside `[data-list-id="chat-messages"]`. -/
structure MsgElem where
  /-- `id` attribute of the element. -/
  idAttr : Option String
  /-- `data-list-item-id` attribute (used only by client.py's fallback). -/
  dataListItemId : Option String
  /-- text of `[class*="messageContent"]`. -/
  contentSel1 : Option String
  /-- text of `[class*="markup"]` (client_backup.py fallback). -/
  contentSel2 : Option String
  /-- text of `.messageContent` (client_backup.py fallback). -/
  contentSel3 : Option String
  /-- text of `[class*="username"]`. -/
  authorSel1 : Option String
  /-- text of `[class*="authorName"]` (client_backup.py fallback). -/
  authorSel2 : Option String
  /-- text of `.username` (client_backup.py fallback). -/
  authorSel3 : Option String
  /-- instant denoted by the `datetime` attribute of the `time` element,
  `none` when the element or attribute is absent (ISO-8601 parsing is
  abstracted to the denoted instant). -/
  timeAttr : Option Int
  /-- `href` values of `a[href*="cdn.discordapp.com"]` descendants. -/
  attachmentHrefs : List String
deriving Repr, DecidableEq

/-- First truthy selector text: the Python pattern
`for sel in [...]: if elem and (text := elem.text_content()): ... break`. -/
def firstTruthy : List (Option String) → Option String
  | [] => none
  | none :: rest => firstTruthy rest
  | some s :: rest => if s = "" then firstTruthy rest else some s

/-- client_backup.py `_extract_message_data` (lines 647-702): id from the
`id` attribute (default `message-<collected>`) with every occurrence of
`chat-messages-` removed; content and author from their selector priority
lists; timestamp defaulting to `now`; attachments keeping truthy hrefs;
`none` (skip the row) when there is neither content nor attachments. -/
def extractMessageData (now : Int) (channelId : String) (collected : Nat)
    (e : MsgElem) : Option DiscordMessage :=
  let messageId :=
    strRemoveAll (pyOrStr e.idAttr ("message-" ++ toString collected)) "chat-messages-"
  let content :=
    match firstTruthy [e.contentSel1, e.contentSel2, e.contentSel3] with
    | some t => strTrim t
    | none => ""
  let authorName :=
    match firstTruthy [e.authorSel1, e.authorSel2, e.authorSel3] with
    | some t => strTrim t
    | none => "Unknown"
  let timestamp := e.timeAttr.getD now
  let attachments := e.attachmentHrefs.filter (fun h => h != "")
  if content = "" ∧ attachments = [] then none
  else
    some { id := messageId, content := content, author_name := authorName,
           author_id := "unknown", channel_id := channelId,
           timestamp := timestamp, attachments := attachments }

/-- Python `if before and message.id >= before: continue`
(string `>=` is the negation of the total order `<`). -/
def beforeSkips (before : Option String) (id : String) : Bool :=
  match before with
  | some b => b ≠ "" && !pyStrLt id b
  | none => false

/-- Python `if after and message.id <= after: continue`. -/
def afterSkips (after : Option String) (id : String) : Bool :=
  match after with
  | some a => a ≠ "" && !pyStrLt a id
  | none => false

/-- Inner element loop of client_backup.py `get_channel_messages`
(lines 743-758), running over `reversed(elements)`: stop at `limit`,
extract, skip seen ids, apply the `before`/`after` id filters (which do
not mark the id as seen), else append and mark seen. -/
def backupScanElems (now : Int) (channelId : String) (limit : Nat)
    (before after : Option String) :
    List MsgElem → List DiscordMessage × List String → List DiscordMessage × List String
  | [], acc => acc
  | e :: rest, (msgs, seen) =>
    if limit ≤ msgs.length then (msgs, seen)
    else
      match extractMessageData now channelId seen.length e with
      | none => backupScanElems now channelId limit before after rest (msgs, seen)
      | some m =>
        if m.id ∈ seen then
          backupScanElems now channelId limit before after rest (msgs, seen)
        else if beforeSkips before m.id then
          backupScanElems now channelId limit before after rest (msgs, seen)
        else if afterSkips after m.id then
          backupScanElems now channelId limit before after rest (msgs, seen)
        else
          backupScanElems now channelId limit before after rest
            (msgs ++ [m], m.id :: seen)

/-- Retry loop of client_backup.py `get_channel_messages` (lines 734-763),
`for attempt in range(10)`: an empty query result presses PageUp and
retries; otherwise the round's elements are processed newest-first and the
loop stops once `limit` messages are collected.  `rounds` lists the query
results of the successive attempts (missing entries model empty results). -/
def backupRounds (now : Int) (channelId : String) (limit : Nat)
    (before after : Option String) :
    List (List MsgElem) → List DiscordMessage × List String → List DiscordMessage
  | [], acc => acc.1
  | round :: rest, acc =>
    if round = [] then backupRounds now channelId limit before after rest acc
    else
      let acc2 := backupScanElems now channelId limit before after round.reverse acc
      if limit ≤ acc2.1.length then acc2.1
      else backupRounds now channelId limit before after rest acc2

/-- Stable descending insertion by timestamp (helper for `sortByTsDesc`). -/
def insertByTsDesc (m : DiscordMessage) : List DiscordMessage → List DiscordMessage
  | [] => [m]
  | x :: xs =>
    if x.timestamp ≤ m.timestamp then m :: x :: xs
    else x :: insertByTsDesc m xs

/-- Python `sorted(messages, key=lambda m: m.timestamp, reverse=True)`:
a stable descending sort by timestamp (stable sorts by the same key are
extensionally unique, so insertion sort is an exact model). -/
def sortByTsDesc : List DiscordMessage → List DiscordMessage
  | [] => []
  | m :: rest => insertByTsDesc m (sortByTsDesc rest)

/-- client_backup.py `get_channel_messages` (lines 705-765): at most ten
scan rounds, then `sorted(messages, key=timestamp, reverse=True)[:limit]`. -/
def getChannelMessagesBackup (now : Int) (channelId : String) (limit : Nat)
    (before after : Option String) (rounds : List (List MsgElem)) : List DiscordMessage :=
  (sortByTsDesc (backupRounds now channelId limit before after (rounds.take 10) ([], []))).take limit

/-- Per-element extraction inlined in client.py `get_channel_messages`
(lines 517-583): id from the `id` attribute, then `data-list-item-id`, then
`message-<collected>`; the `chat-messages-` prefix is removed only when the
id starts with it; single content/author selectors with defaults; timestamp
defaulting to `now`; truthy attachment hrefs.  Every element yields a
message (there is no empty-row skip in this variant). -/
def extractMessageCurrent (now : Int) (channelId : String) (collected : Nat)
    (e : MsgElem) : DiscordMessage :=
  let id0 := pyOrStr e.idAttr (pyOrStr e.dataListItemId ("message-" ++ toString collected))
  let messageId :=
    if strStartsWith id0 "chat-messages-" then strRemoveAll id0 "chat-messages-" else id0
  let content := strTrim (e.contentSel1.getD "")
  let authorName :=
    match e.authorSel1 with
    | some s => if s = "" then "Unknown" else strTrim s
    | none => "Unknown"
  let timestamp := e.timeAttr.getD now
  let attachments := e.attachmentHrefs.filter (fun h => h != "")
  { id := messageId, content := content, author_name := authorName,
    author_id := "unknown", channel_id := channelId,
    timestamp := timestamp, attachments := attachments }

/-- Python `l[-n:]` for `n ≥ 1`: the last `n` elements. -/
def lastN (n : Nat) (l : List α) : List α := l.drop (l.length - n)

/-- Inner element loop of client.py `get_channel_messages` (lines 517-590):
every element is appended (`collected` always equals the number of messages
so far) and the loop breaks once `limit` is reached. -/
def currentScanElems (now : Int) (channelId : String) (limit : Nat) :
    List MsgElem → List DiscordMessage → List DiscordMessage
  | [], msgs => msgs
  | e :: rest, msgs =>
    let m := extractMessageCurrent now channelId msgs.length e
    let msgs2 := msgs ++ [m]
    if limit ≤ msgs2.length then msgs2
    else currentScanElems now channelId limit rest msgs2

/-- Outer `while collected < limit` loop of client.py `get_channel_messages`
(lines 491-596): each round processes the last `min(50, limit - collected)`
queried elements, then scrolls and retries while elements were found and the
limit is not reached; an empty query result ends the loop.  `rounds` lists
the query results of the successive iterations. -/
def currentRounds (now : Int) (channelId : String) (limit : Nat) :
    List (List MsgElem) → List DiscordMessage → List DiscordMessage
  | [], msgs => msgs
  | round :: rest, msgs =>
    if msgs.length < limit then
      let slice := lastN (min 50 (limit - msgs.length)) round
      let msgs2 := currentScanElems now channelId limit slice msgs
      if msgs2.length < limit ∧ round ≠ [] then currentRounds now channelId limit rest msgs2
      else msgs2
    else msgs

/-- client.py `get_channel_messages` (lines 432-601).  The `before` and
`after` parameters are accepted but never used by this implementation; the
return value is `messages[:limit]` in DOM encounter order (no sort). -/
def getChannelMessagesCurrent (now : Int) (channelId : String) (limit : Nat)
    (before after : Option String) (rounds : List (List MsgElem)) : List DiscordMessage :=
  let _unusedBefore := before
  let _unusedAfter := after
  (currentRounds now channelId limit rounds []).take limit

/-! ## Session lifecycle (client.py `_ensure_browser`, `_check_logged_in`,
`_login`, `_save_storage_state`, `close_client`)

The browser handles of `ClientState` are modelled by presence booleans; the
actions the code performs on the page are recorded in a trace. -/

/-- client.py `ClientState`, with handle fields as presence booleans
(`context` exists only on the client_backup.py variant). -/
structure ClientStateM where
  email : String
  password : String
  headless : Bool
  playwright : Bool
  browser : Bool
  context : Bool
  page : Bool
  logged_in : Bool
  cookies_file : String
deriving Repr, DecidableEq

/-- Browser-touching actions performed by the login flow. -/
inductive BrowserAction where
  /-- `async_playwright().start()` + `chromium.launch` + context + page. -/
  | launch
  /-- `page.goto(url)`. -/
  | navigate (url : String)
  /-- the whole `_check_logged_in` probe (its own navigation included). -/
  | checkAuth
  /-- `page.fill('input[name="email"]', ...)`. -/
  | fillEmail
  /-- `page.fill('input[name="password"]', ...)`. -/
  | fillPassword
  /-- `page.click('button[type="submit"]')`. -/
  | clickSubmit
  /-- `_save_storage_state`: write the cookies artifact to disk. -/
  | saveStorage
deriving Repr, DecidableEq

/-- client.py `_ensure_browser` (lines 63-82): no-op when a playwright
handle is present, otherwise launch and install fresh handles. -/
def ensureBrowserRun (s : ClientStateM) : ClientStateM × List BrowserAction :=
  if s.playwright then (s, [])
  else ({ s with playwright := true, browser := true, page := true }, [BrowserAction.launch])

/-- Environment outcomes consulted by `_login`: the two
`_check_logged_in` results, whether the bounded waits succeed, and the
page state inspected between them. -/
structure LoginWorld where
  /-- result of the first `_check_logged_in`. -/
  check1 : Bool
  /-- the 60s wait for the URL to leave `/login` succeeds. -/
  waitLeaveLoginOk : Bool
  /-- `page.url` after that wait. -/
  urlAfterSubmit : String
  /-- `locator('text="Check your email"').count()`. -/
  emailCheckCount : Nat
  /-- the 120s verification wait succeeds. -/
  waitVerifyOk : Bool
  /-- result of the second `_check_logged_in`. -/
  check2 : Bool
deriving Repr, DecidableEq

/-- The verification-step test of `_login` (client.py line 163):
`"/verify" in current_url or email_check_count > 0`. -/
def needsVerify (w : LoginWorld) : Bool :=
  strContains w.urlAfterSubmit "/verify" || w.emailCheckCount != 0

/-- client.py `_login` (lines 135-184): no-op when already logged in;
otherwise ensure a browser, try the cookie-based `_check_logged_in` path,
and only then fill and submit credentials; on post-submit success the state
is marked logged in, the landing page is reloaded and — since `was_logged_in`
is necessarily false on this path — the storage state is saved.  Failures
are wrapped into a `Failed to login to Discord: ...` error. -/
def loginRun (s : ClientStateM) (w : LoginWorld) :
    List BrowserAction × Except String ClientStateM :=
  if s.logged_in then ([], Except.ok s)
  else
    let (s1, t1) := ensureBrowserRun s
    if !s1.page then (t1, Except.error "Browser page not initialized")
    else if w.check1 then (t1 ++ [BrowserAction.checkAuth], Except.ok { s1 with logged_in := true })
    else
      let t2 := t1 ++ [BrowserAction.checkAuth, BrowserAction.navigate "https://discord.com/login",
                       BrowserAction.fillEmail, BrowserAction.fillPassword, BrowserAction.clickSubmit]
      if !w.waitLeaveLoginOk then
        (t2, Except.error "Failed to login to Discord: login wait timed out")
      else if needsVerify w ∧ !w.waitVerifyOk then
        (t2, Except.error "Failed to login to Discord: verification wait timed out")
      else if w.check2 then
        let wasLoggedIn := s1.logged_in
        let s2 := { s1 with logged_in := true }
        let t3 := t2 ++ [BrowserAction.checkAuth, BrowserAction.navigate "https://discord.com/channels/@me"]
        let t4 := if !wasLoggedIn then t3 ++ [BrowserAction.saveStorage] else t3
        (t4, Except.ok s2)
      else
        (t2 ++ [BrowserAction.checkAuth],
         Except.error "Failed to login to Discord: Login appeared to succeed but verification failed")

/-- Page state and outcomes consulted by `_check_logged_in`. -/
structure CheckWorld where
  /-- `page.goto("https://discord.com/channels/@me")` raises. -/
  gotoRaises : Bool
  /-- the 15s `wait_for_selector` for a guildsnav treeitem raises. -/
  waitSelectorRaises : Bool
  /-- `page.url` after the navigation. -/
  url : String
  /-- a query inside the inner `try` raises. -/
  innerRaises : Bool
  /-- `query_selector('[data-list-id="guildsnav"]')` finds an element. -/
  guildsNav : Bool
  /-- `query_selector('[aria-label*="User Settings"]')` finds an element. -/
  userSettings : Bool
  /-- `query_selector('[data-list-id="guildsnav"] [role="treeitem"]')` finds
  an element. -/
  dmTreeItems : Bool
deriving Repr, DecidableEq

/-- client.py `_check_logged_in` (lines 92-132): false without a page
handle; any exception in the outer or inner `try` yields false; true
requires a non-login, non-register URL containing `/channels/@me`, the
guildsnav landmark, and either the User-Settings element or a treeitem. -/
def checkLoggedInRun (page : Bool) (w : CheckWorld) : Bool :=
  if !page then false
  else if w.gotoRaises then false
  else if w.waitSelectorRaises then false
  else if strContains w.url "/login" || strContains w.url "/register" then false
  else if !(strContains w.url "/channels/@me") then false
  else if w.innerRaises then false
  else if !w.guildsNav then false
  else if w.userSettings then true
  else w.dmTreeItems

/-! ## Teardown (client.py / client_backup.py `close_client`) -/

/-- One close/stop attempt in the teardown sequence. -/
inductive CloseEvent where
  | closePage
  | closeContext
  | closeBrowser
  | stopPlaywright
deriving Repr, DecidableEq

/-- Which close/stop calls raise. -/
structure CloseWorld where
  pageCloseRaises : Bool
  contextCloseRaises : Bool
  browserCloseRaises : Bool
  playwrightStopRaises : Bool
deriving Repr, DecidableEq

/-- Outcome of one awaited close/stop call: `.error` models the call
raising. -/
def closeCall (raises : Bool) : Except String Unit :=
  if raises then Except.error "close failed" else Except.ok ()

/-- `except Exception: pass`: whatever the outcome, continue with `ok`. -/
def exceptPass : Except String Unit → Except String Unit
  | _ => Except.ok ()

/-- One `try: if handle: await handle.close() except Exception: pass` step:
the attempt is recorded when the handle is present, and a raising close is
swallowed. -/
def tryCloseStep (present raises : Bool) (ev : CloseEvent) :
    List CloseEvent × Except String Unit :=
  if present then ([ev], exceptPass (closeCall raises)) else ([], Except.ok ())

/-- client.py `close_client` (lines 187-198): close the browser, then stop
playwright, each in its own try/except.  The page handle is never closed
directly. -/
def closeClientRunCurrent (s : ClientStateM) (w : CloseWorld) :
    List CloseEvent × Except String Unit :=
  let (t1, r1) := tryCloseStep s.browser w.browserCloseRaises CloseEvent.closeBrowser
  let (t2, r2) := tryCloseStep s.playwright w.playwrightStopRaises CloseEvent.stopPlaywright
  (t1 ++ t2, r1.bind (fun _ => r2))

/-- client_backup.py `close_client` (lines 157-176): best-effort close of
page, context, browser, then playwright (the trailing `gc.collect()` is not
modelled). -/
def closeClientRunBackup (s : ClientStateM) (w : CloseWorld) :
    List CloseEvent × Except String Unit :=
  let (t1, r1) := tryCloseStep s.page w.pageCloseRaises CloseEvent.closePage
  let (t2, r2) := tryCloseStep s.context w.contextCloseRaises CloseEvent.closeContext
  let (t3, r3) := tryCloseStep s.browser w.browserCloseRaises CloseEvent.closeBrowser
  let (t4, r4) := tryCloseStep s.playwright w.playwrightStopRaises CloseEvent.stopPlaywright
  (t1 ++ t2 ++ t3 ++ t4,
   r1.bind (fun _ => r2.bind (fun _ => r3.bind (fun _ => r4))))

/-! ## Protocol layer (server.py `call_tool`)

Only the dispatch logic is modelled: which arguments are read, what is
passed to the core, and whether a success payload is produced.  A missing
required argument raises `KeyError`, which the enclosing `except Exception`
turns into an error payload without invoking the core. -/

/-- A call into the core performed by the tool dispatcher. -/
inductive CoreCall where
  | sendMessage (channelId content : String)
  | readRecent (channelId : String) (hoursBack maxMessages : Int)
deriving Repr, DecidableEq

/-- The resolved configuration defaults used by `call_tool`. -/
structure ServerConfig where
  default_hours_back : Int
  max_messages_per_channel : Int
deriving Repr, DecidableEq

/-- Arguments of a `send_message` tool call. -/
structure SendArgs where
  channel_id : Option String
  content : Option String
deriving Repr, DecidableEq

/-- Arguments of a `read_messages` tool call. -/
structure ReadArgs where
  channel_id : Option String
  hours_back : Option Int
  max_messages : Option Int
deriving Repr, DecidableEq

/-- server.py `call_tool`, `send_message` branch (lines 304-315): both
arguments are read (`KeyError` → error payload) and the core send is invoked
with the content exactly as received — there is no bounds or length
validation.  The boolean is true when a success payload is returned. -/
def callToolSend (a : SendArgs) : List CoreCall × Bool :=
  match a.channel_id, a.content with
  | some cid, some content => ([CoreCall.sendMessage cid content], true)
  | _, _ => ([], false)

/-- server.py `call_tool`, `read_messages` branch (lines 238-260):
`hours_back` and `max_messages` fall back to the config defaults and are
passed to `read_recent_messages` unchecked. -/
def callToolRead (cfg : ServerConfig) (a : ReadArgs) : List CoreCall × Bool :=
  match a.channel_id with
  | some cid =>
    ([CoreCall.readRecent cid (a.hours_back.getD cfg.default_hours_back)
        (a.max_messages.getD cfg.max_messages_per_channel)], true)
  | none => ([], false)

/-! ## Time-window filtering (messages.py) -/

/-- messages.py `_filter_messages_by_time` (lines 12-25): keep messages
strictly after `after` and strictly before `before` (each bound optional;
a datetime is always truthy). -/
def filterMessagesByTime (messages : List DiscordMessage)
    (after before : Option Int) : List DiscordMessage :=
  let f1 :=
    match after with
    | some a => messages.filter (fun m => decide (a < m.timestamp))
    | none => messages
  match before with
  | some b => f1.filter (fun m => decide (m.timestamp < b))
  | none => f1

/-- Pagination loop of messages.py `read_recent_messages` (lines 42-59):
each iteration consumes the next batch the client returns (`batches` lists
them; exhaustion models an empty response, which breaks the loop), filters
it against the cutoff, and stops when the batch is empty, its oldest message
is older than the cutoff, or `max_messages` is reached. -/
def readRecentMessagesGo (cutoff : Int) (maxMessages : Nat) :
    List (List DiscordMessage) → List DiscordMessage → Option String → List DiscordMessage
  | [], allMessages, _ => allMessages
  | batch :: rest, allMessages, _lastId =>
    if allMessages.length < maxMessages then
      match batch with
      | [] => allMessages
      | m0 :: ms =>
        let recent := filterMessagesByTime (m0 :: ms) (some cutoff) none
        let allMessages2 := allMessages ++ recent
        let oldest := (m0 :: ms).getLast (List.cons_ne_nil m0 ms)
        if oldest.timestamp < cutoff then allMessages2
        else readRecentMessagesGo cutoff maxMessages rest allMessages2 (some oldest.id)
    else allMessages

/-- messages.py `read_recent_messages` (lines 32-61): the cutoff is computed
once (`now - hours_back * 3600` seconds) and the accumulated messages are
returned sorted newest-first. -/
def readRecentMessages (now hoursBack : Int) (maxMessages : Nat)
    (batches : List (List DiscordMessage)) : List DiscordMessage :=
  let cutoff := now - hoursBack * 3600
  sortByTsDesc (readRecentMessagesGo cutoff maxMessages batches [] none)

/-! ## Lemmas about the stable descending sort -/

theorem insertByTsDesc_perm (m : DiscordMessage) (l : List DiscordMessage) :
    (insertByTsDesc m l).Perm (m :: l) := by
  induction l with
  | nil => simp [insertByTsDesc]
  | cons x xs ih =>
    simp only [insertByTsDesc]
    split
    · exact List.Perm.refl _
    · exact (ih.cons x).trans (List.Perm.swap m x xs)

theorem sortByTsDesc_perm (l : List DiscordMessage) : (sortByTsDesc l).Perm l := by
  induction l with
  | nil => simp [sortByTsDesc]
  | cons m rest ih =>
    exact (insertByTsDesc_perm m (sortByTsDesc rest)).trans (ih.cons m)

theorem mem_sortByTsDesc {a : DiscordMessage} {l : List DiscordMessage} :
    a ∈ sortByTsDesc l ↔ a ∈ l :=
  (sortByTsDesc_perm l).mem_iff

theorem pairwise_insertByTsDesc {m : DiscordMessage} {l : List DiscordMessage}
    (h : List.Pairwise (fun a b => b.timestamp ≤ a.timestamp) l) :
    List.Pairwise (fun a b => b.timestamp ≤ a.timestamp) (insertByTsDesc m l) := by
  induction l with
  | nil => simp [insertByTsDesc]
  | cons x xs ih =>
    rcases List.pairwise_cons.mp h with ⟨hx, hxs⟩
    simp only [insertByTsDesc]
    split
    · rename_i hle
      refine List.pairwise_cons.mpr ⟨?_, h⟩
      intro y hy
      rcases List.mem_cons.mp hy with hyx | hyxs
      · exact hyx ▸ hle
      · exact le_trans (hx y hyxs) hle
    · rename_i hgt
      refine List.pairwise_cons.mpr ⟨?_, ih hxs⟩
      intro y hy
      rcases List.mem_cons.mp ((insertByTsDesc_perm m xs).mem_iff.mp hy) with hym | hyxs
      · exact hym ▸ le_of_not_le hgt
      · exact hx y hyxs

theorem pairwise_sortByTsDesc (l : List DiscordMessage) :
    List.Pairwise (fun a b => b.timestamp ≤ a.timestamp) (sortByTsDesc l) := by
  induction l with
  | nil => simp [sortByTsDesc]
  | cons m rest ih => exact pairwise_insertByTsDesc ih

/-! ## Invariants of the client_backup message scan -/

theorem backupScanElems_invariant (now : Int) (ch : String) (lim : Nat)
    (b a : Option String) :
    ∀ (elems : List MsgElem) (msgs : List DiscordMessage) (seen : List String),
      (msgs.map (fun m => m.id)).Nodup → (∀ m ∈ msgs, m.id ∈ seen) →
      (((backupScanElems now ch lim b a elems (msgs, seen)).1.map (fun m => m.id)).Nodup ∧
       ∀ m ∈ (backupScanElems now ch lim b a elems (msgs, seen)).1,
         m.id ∈ (backupScanElems now ch lim b a elems (msgs, seen)).2) := by
  intro elems
  induction elems with
  | nil =>
    intro msgs seen h1 h2
    exact ⟨h1, h2⟩
  | cons e rest ih =>
    intro msgs seen h1 h2
    simp only [backupScanElems]
    by_cases hlim : lim ≤ msgs.length
    · simp only [if_pos hlim]
      exact ⟨h1, h2⟩
    · simp only [if_neg hlim]
      cases hx : extractMessageData now ch seen.length e with
      | none => exact ih msgs seen h1 h2
      | some m =>
        by_cases hseen : m.id ∈ seen
        · simp only [if_pos hseen]
          exact ih msgs seen h1 h2
        · simp only [if_neg hseen]
          by_cases hb : beforeSkips b m.id = true
          · simp only [hb, if_true]
            exact ih msgs seen h1 h2
          · simp only [hb, if_false]
            by_cases ha : afterSkips a m.id = true
            · simp only [ha, if_true]
              exact ih msgs seen h1 h2
            · simp only [ha, if_false]
              refine ih (msgs ++ [m]) (m.id :: seen) ?_ ?_
              · rw [List.map_append, List.nodup_append]
                refine ⟨h1, by simp, ?_⟩
                intro x hxm hxs
                rcases List.mem_map.mp hxm with ⟨y, hy, hyx⟩
                have hxseen : x ∈ seen := hyx ▸ h2 y hy
                rcases List.mem_map.mp hxs with ⟨z, hz, hzx⟩
                have hzm : z = m := List.mem_singleton.mp hz
                have hmx : m.id = x := by rw [← hzx, hzm]
                exact hseen (hmx ▸ hxseen)
              · intro x hx2
                rcases List.mem_append.mp hx2 with hx3 | hx3
                · exact List.mem_cons_of_mem _ (h2 x hx3)
                · have : x = m := List.mem_singleton.mp hx3
                  simp [this]

theorem backupRounds_nodup (now : Int) (ch : String) (lim : Nat) (b a : Option String) :
    ∀ (rounds : List (List MsgElem)) (msgs : List DiscordMessage) (seen : List String),
      (msgs.map (fun m => m.id)).Nodup → (∀ m ∈ msgs, m.id ∈ seen) →
      ((backupRounds now ch lim b a rounds (msgs, seen)).map (fun m => m.id)).Nodup := by
  intro rounds
  induction rounds with
  | nil =>
    intro msgs seen h1 _
    exact h1
  | cons round rest ih =>
    intro msgs seen h1 h2
    simp only [backupRounds]
    by_cases hr : round = []
    · simp only [if_pos hr]
      exact ih msgs seen h1 h2
    · simp only [if_neg hr]
      obtain ⟨hn, hm⟩ := backupScanElems_invariant now ch lim b a round.reverse msgs seen h1 h2
      by_cases hl : lim ≤ (backupScanElems now ch lim b a round.reverse (msgs, seen)).1.length
      · simp only [if_pos hl]
        exact hn
      · simp only [if_neg hl]
        exact ih (backupScanElems now ch lim b a round.reverse (msgs, seen)).1
          (backupScanElems now ch lim b a round.reverse (msgs, seen)).2 hn hm

theorem getChannelMessagesBackup_ids_nodup (now : Int) (ch : String) (lim : Nat)
    (b a : Option String) (rounds : List (List MsgElem)) :
    ((getChannelMessagesBackup now ch lim b a rounds).map (fun m => m.id)).Nodup := by
  have h0 := backupRounds_nodup now ch lim b a (rounds.take 10) [] [] (by simp) (by simp)
  have hperm :
      ((sortByTsDesc (backupRounds now ch lim b a (rounds.take 10) ([], []))).map
          (fun m => m.id)).Perm
        ((backupRounds now ch lim b a (rounds.take 10) ([], [])).map (fun m => m.id)) :=
    (sortByTsDesc_perm _).map _
  have hs := hperm.nodup_iff.mpr h0
  unfold getChannelMessagesBackup
  rw [List.map_take]
  exact hs.sublist (List.take_sublist _ _)

/-! ## Invariants of the channel scans -/

theorem scanAnchorsBackup_nodup (g : String) :
    ∀ (anchors : List Anchor) (seen : List String),
      (((scanAnchorsBackup g anchors seen).map (fun cd => cd.id)).Nodup ∧
       ∀ cid ∈ (scanAnchorsBackup g anchors seen).map (fun cd => cd.id), cid ∉ seen) := by
  intro anchors
  induction anchors with
  | nil =>
    intro seen
    simp [scanAnchorsBackup]
  | cons a rest ih =>
    intro seen
    simp only [scanAnchorsBackup]
    cases hx : matchChannelsUrl a.href with
    | none => exact ih seen
    | some p =>
      obtain ⟨g2, cid⟩ := p
      by_cases hg : g2 = g
      · simp only [if_pos hg]
        by_cases hs : cid ∈ seen
        · simp only [if_pos hs]
          exact ih seen
        · simp only [if_neg hs]
          obtain ⟨ihn, ihm⟩ := ih (cid :: seen)
          constructor
          · rw [List.map_cons, List.nodup_cons]
            refine ⟨?_, ihn⟩
            intro hmem
            exact (ihm cid hmem) (List.mem_cons_self cid seen)
          · intro x hxm
            rcases List.mem_cons.mp hxm with hxc | hxr
            · exact hxc ▸ hs
            · intro hxs
              exact (ihm x hxr) (List.mem_cons_of_mem _ hxs)
      · simp only [if_neg hg]
        exact ih seen

theorem scanAnchorsBackup_mem_of_matched (g : String) :
    ∀ (anchors : List Anchor) (seen : List String) (cid : String),
      (∃ aa ∈ anchors, matchChannelsUrl aa.href = some (g, cid)) →
      cid ∈ (scanAnchorsBackup g anchors seen).map (fun cd => cd.id) ∨ cid ∈ seen := by
  intro anchors
  induction anchors with
  | nil =>
    intro seen cid h
    rcases h with ⟨aa, haa, _⟩
    exact absurd haa (List.not_mem_nil aa)
  | cons a rest ih =>
    intro seen cid h
    simp only [scanAnchorsBackup]
    rcases h with ⟨aa, haa, hmatch⟩
    rcases List.mem_cons.mp haa with rfl | hrest
    · rw [hmatch]
      simp only [if_pos rfl]
      by_cases hs : cid ∈ seen
      · exact Or.inr hs
      · simp only [if_neg hs]
        exact Or.inl (by simp)
    · cases hx : matchChannelsUrl a.href with
      | none => exact ih seen cid ⟨aa, hrest, hmatch⟩
      | some p =>
        obtain ⟨g2, cid2⟩ := p
        by_cases hg : g2 = g
        · simp only [if_pos hg]
          by_cases hs : cid2 ∈ seen
          · simp only [if_pos hs]
            exact ih seen cid ⟨aa, hrest, hmatch⟩
          · simp only [if_neg hs]
            rcases ih (cid2 :: seen) cid ⟨aa, hrest, hmatch⟩ with hin | hseen
            · exact Or.inl (List.mem_cons_of_mem _ hin)
            · rcases List.mem_cons.mp hseen with rfl | hseen2
              · exact Or.inl (by simp)
              · exact Or.inr hseen2
        · simp only [if_neg hg]
          exact ih seen cid ⟨aa, hrest, hmatch⟩

set_option maxHeartbeats 1600000 in
theorem scanAnchorsBackup_names (g : String) :
    ∀ (anchors : List Anchor) (seen : List String) (cd : ChannelData),
      cd ∈ scanAnchorsBackup g anchors seen →
      ∃ aa ∈ anchors, matchChannelsUrl aa.href = some (g, cd.id) ∧
        cd.name = (if cleanChannelName aa.text = "" then "channel-" ++ cd.id
                   else cleanChannelName aa.text) := by
  intro anchors
  induction anchors with
  | nil =>
    intro seen cd h
    exact absurd h (List.not_mem_nil cd)
  | cons a rest ih =>
    intro seen cd h
    simp only [scanAnchorsBackup] at h
    cases hx : matchChannelsUrl a.href with
    | none =>
      rw [hx] at h
      simp only [] at h
      rcases ih seen cd h with ⟨aa, haa, hp⟩
      exact ⟨aa, List.mem_cons_of_mem a haa, hp⟩
    | some p =>
      obtain ⟨g2, cid⟩ := p
      rw [hx] at h
      simp only [] at h
      by_cases hg : g2 = g
      · rw [if_pos hg] at h
        by_cases hs : cid ∈ seen
        · rw [if_pos hs] at h
          rcases ih seen cd h with ⟨aa, haa, hp⟩
          exact ⟨aa, List.mem_cons_of_mem a haa, hp⟩
        · rw [if_neg hs] at h
          rcases List.mem_cons.mp h with rfl | htail
          · refine ⟨a, List.mem_cons_self a rest, ?_, rfl⟩
            rw [hx, hg]
          · rcases ih (cid :: seen) cd htail with ⟨aa, haa, hp⟩
            exact ⟨aa, List.mem_cons_of_mem a haa, hp⟩
      · rw [if_neg hg] at h
        rcases ih seen cd h with ⟨aa, haa, hp⟩
        exact ⟨aa, List.mem_cons_of_mem a haa, hp⟩

theorem getGuildChannelsBackup_ids_nodup (g : String)
    (originalAnchors browseAnchors : List Anchor) :
    ((getGuildChannelsBackup g originalAnchors browseAnchors).map (fun c => c.id)).Nodup := by
  unfold getGuildChannelsBackup
  have horig := (scanAnchorsBackup_nodup g originalAnchors []).1
  have hbrowse := (scanAnchorsBackup_nodup g browseAnchors []).1
  rw [List.map_map]
  have hcomp :
      ((fun c : DiscordChannel => c.id) ∘
        (fun cd : ChannelData =>
          ({ id := cd.id, name := cd.name, type := 0, guild_id := some g } : DiscordChannel))) =
        (fun cd : ChannelData => cd.id) := rfl
  rw [hcomp, List.map_append, List.nodup_append]
  refine ⟨horig, ?_, ?_⟩
  · have hsub : ((scanAnchorsBackup g browseAnchors []).filter
        (fun cd => decide (cd.id ∉ (scanAnchorsBackup g originalAnchors []).map
          (fun ch => ch.id)))).Sublist (scanAnchorsBackup g browseAnchors []) :=
      List.filter_sublist _
    exact hbrowse.sublist (hsub.map _)
  · intro x hxorig hxfilt
    rcases List.mem_map.mp hxfilt with ⟨cd, hcd, hcdx⟩
    rcases List.mem_filter.mp hcd with ⟨_, hpred⟩
    have := of_decide_eq_true hpred
    exact this (hcdx ▸ hxorig)

theorem scanAnchorsCurrent_nodup (g : String) :
    ∀ (anchors : List Anchor) (seen : List String),
      (((scanAnchorsCurrent g anchors seen).map (fun cd => cd.id)).Nodup ∧
       ∀ cid ∈ (scanAnchorsCurrent g anchors seen).map (fun cd => cd.id), cid ∉ seen) := by
  intro anchors
  induction anchors with
  | nil =>
    intro seen
    simp [scanAnchorsCurrent]
  | cons a rest ih =>
    intro seen
    simp only [scanAnchorsCurrent]
    cases hx : matchChannelsUrl a.href with
    | none => exact ih seen
    | some p =>
      obtain ⟨g2, cid⟩ := p
      by_cases hg : g2 = g
      · simp only [if_pos hg]
        by_cases hs : cid ∈ seen
        · simp only [if_pos hs]
          exact ih seen
        · simp only [if_neg hs]
          by_cases hn : cleanChannelName a.text ≠ "" ∧
              strContains (cleanChannelName a.text) "undefined" = false
          · simp only [if_pos hn]
            obtain ⟨ihn, ihm⟩ := ih (cid :: seen)
            constructor
            · rw [List.map_cons, List.nodup_cons]
              refine ⟨?_, ihn⟩
              intro hmem
              exact (ihm cid hmem) (List.mem_cons_self cid seen)
            · intro x hxm
              rcases List.mem_cons.mp hxm with hxc | hxr
              · exact hxc ▸ hs
              · intro hxs
                exact (ihm x hxr) (List.mem_cons_of_mem _ hxs)
          · simp only [if_neg hn]
            obtain ⟨ihn, ihm⟩ := ih (cid :: seen)
            refine ⟨ihn, ?_⟩
            intro x hxm hxs
            exact (ihm x hxm) (List.mem_cons_of_mem _ hxs)
      · simp only [if_neg hg]
        exact ih seen

theorem getGuildChannelsCurrent_ids_nodup (g url title : String) (anchors : List Anchor) :
    ((getGuildChannelsCurrent g url title anchors).map (fun c => c.id)).Nodup := by
  have h := (scanAnchorsCurrent_nodup g anchors []).1
  show (((scanAnchorsCurrent g anchors []).map
      (fun cd => ({ id := cd.id, name := cd.name, type := 0, guild_id := some g } :
        DiscordChannel))).map (fun c => c.id)).Nodup
  rw [List.map_map]
  have hcomp :
      ((fun c : DiscordChannel => c.id) ∘
        (fun cd : ChannelData =>
          ({ id := cd.id, name := cd.name, type := 0, guild_id := some g } :
            DiscordChannel))) =
        (fun cd : ChannelData => cd.id) := rfl
  rw [hcomp]
  exact h

/-! ## Membership in the read_recent_messages accumulator -/

theorem readRecentMessagesGo_mem (cutoff : Int) (maxM : Nat) :
    ∀ (batches : List (List DiscordMessage)) (acc : List DiscordMessage)
      (lastId : Option String),
      (∀ x ∈ acc, cutoff < x.timestamp) →
      ∀ m ∈ readRecentMessagesGo cutoff maxM batches acc lastId, cutoff < m.timestamp := by
  intro batches
  induction batches with
  | nil =>
    intro acc lastId hacc m hm
    exact hacc m hm
  | cons batch rest ih =>
    intro acc lastId hacc m hm
    simp only [readRecentMessagesGo] at hm
    by_cases hlen : acc.length < maxM
    · rw [if_pos hlen] at hm
      cases batch with
      | nil => exact hacc m hm
      | cons m0 ms =>
        simp only [] at hm
        have hall2 : ∀ x ∈ acc ++ filterMessagesByTime (m0 :: ms) (some cutoff) none,
            cutoff < x.timestamp := by
          intro x hx
          rcases List.mem_append.mp hx with h1 | h2
          · exact hacc x h1
          · simp only [filterMessagesByTime] at h2
            rcases List.mem_filter.mp h2 with ⟨_, hp⟩
            exact of_decide_eq_true hp
        by_cases hold : ((m0 :: ms).getLast (List.cons_ne_nil m0 ms)).timestamp < cutoff
        · rw [if_pos hold] at hm
          exact hall2 m hm
        · rw [if_neg hold] at hm
          exact ih _ _ hall2 m hm
    · rw [if_neg hlen] at hm
      exact hacc m hm

/-! ## The claims -/

/-- C1 (the code drops the id-range filters): with both bounds supplied
(`before = "200"`, `after = "100"`), client.py's `get_channel_messages`
returns the rendered message with id `"300"`, which lies outside the open
interval under Python string comparison (`"100" < "300"` but not
`"300" < "200"`); client_backup.py's implementation of the same operation
filters it out, as the claim demands. -/
theorem claim1_id_filters_dropped_in_client :
    ((getChannelMessagesCurrent 1000 "chan" 1 (some "200") (some "100")
        [[{ idAttr := some "chat-messages-300", dataListItemId := none,
            contentSel1 := some "hello", contentSel2 := none, contentSel3 := none,
            authorSel1 := some "alice", authorSel2 := none, authorSel3 := none,
            timeAttr := some 50, attachmentHrefs := [] }]]).map (fun m => m.id) = ["300"]) ∧
    pyStrLt "100" "300" = true ∧ pyStrLt "300" "200" = false ∧
    getChannelMessagesBackup 1000 "chan" 1 (some "200") (some "100")
        [[{ idAttr := some "chat-messages-300", dataListItemId := none,
            contentSel1 := some "hello", contentSel2 := none, contentSel3 := none,
            authorSel1 := some "alice", authorSel2 := none, authorSel3 := none,
            timeAttr := some 50, attachmentHrefs := [] }]] = [] := by
  decide

/-- C2 counterexample: client.py's `get_channel_messages` returns the
messages in DOM encounter order; with the older message rendered first the
result (timestamps `[1, 2]`) is not sorted newest-first. -/
theorem claim2_counterexample_unsorted_output :
    ¬ List.Pairwise (fun a b : DiscordMessage => b.timestamp ≤ a.timestamp)
      (getChannelMessagesCurrent 99 "chan" 5 none none
        [[{ idAttr := some "chat-messages-101", dataListItemId := none,
            contentSel1 := some "old", contentSel2 := none, contentSel3 := none,
            authorSel1 := some "bob", authorSel2 := none, authorSel3 := none,
            timeAttr := some 1, attachmentHrefs := [] },
          { idAttr := some "chat-messages-102", dataListItemId := none,
            contentSel1 := some "new", contentSel2 := none, contentSel3 := none,
            authorSel1 := some "bob", authorSel2 := none, authorSel3 := none,
            timeAttr := some 2, attachmentHrefs := [] }]]) := by
  decide

/-- C2 amended: for every call with `limit = N` the returned list of either
implementation has length at most `N`; client_backup.py additionally returns
it sorted by timestamp descending (client.py keeps DOM encounter order). -/
theorem claim2_amended_limit_and_backup_sorted (now : Int) (channelId : String)
    (limit : Nat) (before after : Option String) (rounds : List (List MsgElem)) :
    (getChannelMessagesCurrent now channelId limit before after rounds).length ≤ limit ∧
    (getChannelMessagesBackup now channelId limit before after rounds).length ≤ limit ∧
    List.Pairwise (fun x y => y.timestamp ≤ x.timestamp)
      (getChannelMessagesBackup now channelId limit before after rounds) := by
  refine ⟨?_, ?_, ?_⟩
  · show ((currentRounds now channelId limit rounds []).take limit).length ≤ limit
    rw [List.length_take]
    exact min_le_left _ _
  · show ((sortByTsDesc (backupRounds now channelId limit before after
        (rounds.take 10) ([], []))).take limit).length ≤ limit
    rw [List.length_take]
    exact min_le_left _ _
  · show List.Pairwise (fun x y => y.timestamp ≤ x.timestamp)
      ((sortByTsDesc (backupRounds now channelId limit before after
        (rounds.take 10) ([], []))).take limit)
    exact List.Pairwise.sublist (List.take_sublist _ _) (pairwise_sortByTsDesc _)

/-- C3 counterexample: client.py's `get_channel_messages` keeps no seen-set,
so when a scroll round re-queries a message element that was already
extracted in the previous round (the normal case — scrolling up keeps the
already-rendered messages in the DOM) the same id `"300"` is returned
twice. -/
theorem claim3_counterexample_message_rescan_duplicate :
    ¬ ((getChannelMessagesCurrent 1000 "chan" 3 none none
          [[{ idAttr := some "chat-messages-300", dataListItemId := none,
              contentSel1 := some "hello", contentSel2 := none, contentSel3 := none,
              authorSel1 := some "alice", authorSel2 := none, authorSel3 := none,
              timeAttr := some 50, attachmentHrefs := [] }],
           [{ idAttr := some "chat-messages-300", dataListItemId := none,
              contentSel1 := some "hello", contentSel2 := none, contentSel3 := none,
              authorSel1 := some "alice", authorSel2 := none, authorSel3 := none,
              timeAttr := some 50, attachmentHrefs := [] }]]).map
        (fun m => m.id)).Nodup := by
  decide

/-- C3 amended: the channel and guild-channel extractions deduplicate by id —
client_backup.py's `get_channel_messages` and `get_guild_channels`, and also
client.py's `get_guild_channels` (its currently-open-channel push is dead
code, and its anchor scan is seen-set-guarded), return no duplicate ids for
any input; client.py's `get_channel_messages`, however, has no per-id
deduplication and can return the same message id once per scan round (see
the counterexample). -/
theorem claim3_amended_dedup_invariant (now : Int) (channelId : String) (limit : Nat)
    (before after : Option String) (rounds : List (List MsgElem))
    (guildId currentUrl title : String) (anchors : List Anchor)
    (guildId2 : String) (originalAnchors browseAnchors : List Anchor) :
    ((getChannelMessagesBackup now channelId limit before after rounds).map
        (fun m => m.id)).Nodup ∧
    ((getGuildChannelsCurrent guildId currentUrl title anchors).map
        (fun c => c.id)).Nodup ∧
    ((getGuildChannelsBackup guildId2 originalAnchors browseAnchors).map
        (fun c => c.id)).Nodup :=
  ⟨getChannelMessagesBackup_ids_nodup now channelId limit before after rounds,
   getGuildChannelsCurrent_ids_nodup guildId currentUrl title anchors,
   getGuildChannelsBackup_ids_nodup guildId2 originalAnchors browseAnchors⟩

/-- A 2001-character message content. -/
def longContent2001 : String := String.mk (List.replicate 2001 'a')

/-- C4 counterexample: `call_tool`'s `send_message` branch performs no
length validation — a 2001-character content is handed to the core send
operation and a success payload is produced. -/
theorem claim4_counterexample_oversized_content_reaches_core :
    longContent2001.toList.length = 2001 ∧
    callToolSend { channel_id := some "c1", content := some longContent2001 } =
      ([CoreCall.sendMessage "c1" longContent2001], true) := by
  constructor
  · rw [show longContent2001.toList = List.replicate 2001 'a' from rfl,
      List.length_replicate]
  · rfl

/-- C4 amended: the protocol layer validates nothing — `send_message`
forwards any content (of any length) to the core unchanged, and
`read_messages` forwards `hours_back` / `max_messages` (or the config
defaults) without bounds checks. -/
theorem claim4_amended_no_protocol_validation (cfg : ServerConfig)
    (cid content : String) (h m : Int) :
    callToolSend { channel_id := some cid, content := some content } =
      ([CoreCall.sendMessage cid content], true) ∧
    callToolRead cfg
        { channel_id := some cid, hours_back := some h, max_messages := some m } =
      ([CoreCall.readRecent cid h m], true) :=
  ⟨rfl, rfl⟩

/-- C10: every message returned by `read_recent_messages` with
`hours_back = H` has a timestamp strictly later than the cutoff
`now - H * 3600` computed once at the start of the call. -/
theorem claim10_cutoff_strictly_filters (now hoursBack : Int) (maxMessages : Nat)
    (batches : List (List DiscordMessage)) :
    ∀ m ∈ readRecentMessages now hoursBack maxMessages batches,
      now - hoursBack * 3600 < m.timestamp := by
  intro m hm
  have hmem : m ∈ readRecentMessagesGo (now - hoursBack * 3600) maxMessages batches [] none :=
    mem_sortByTsDesc.mp hm
  refine readRecentMessagesGo_mem _ _ _ _ _ ?_ m hmem
  intro x hx
  exact absurd hx (List.not_mem_nil x)

/-- C10 witness: a concrete call returning one message dated after the
cutoff. -/
theorem claim10_witness :
    (0 : Int) - 1 * 3600 < 1 :=
  claim10_cutoff_strictly_filters 0 1 5
    [[{ id := "1", content := "x", author_name := "a", author_id := "u",
        channel_id := "c", timestamp := 1, attachments := [] }]]
    { id := "1", content := "x", author_name := "a", author_id := "u",
      channel_id := "c", timestamp := 1, attachments := [] }
    (by decide)

/-- C5: `_login` is a no-op on an already-logged-in state (it returns the
state unchanged, touching nothing), and when the cookie-restored session
passes `_check_logged_in` it returns a logged-in state without ever filling
the credential fields or clicking submit. -/
theorem claim5_login_noop_and_cookie_reuse (s : ClientStateM) (w : LoginWorld) :
    (s.logged_in = true → loginRun s w = ([], Except.ok s)) ∧
    (s.logged_in = false → (s.playwright = true → s.page = true) → w.check1 = true →
      (∃ s2, (loginRun s w).2 = Except.ok s2 ∧ s2.logged_in = true) ∧
      BrowserAction.fillEmail ∉ (loginRun s w).1 ∧
      BrowserAction.fillPassword ∉ (loginRun s w).1 ∧
      BrowserAction.clickSubmit ∉ (loginRun s w).1) := by
  constructor
  · intro h
    simp [loginRun, h]
  · intro h hpw hc1
    cases hp : s.playwright with
    | true =>
      have hpage : s.page = true := hpw hp
      simp [loginRun, ensureBrowserRun, h, hp, hpage, hc1]
    | false =>
      simp [loginRun, ensureBrowserRun, h, hp, hc1]

/-- C5 witness: the no-op path at a concrete logged-in state, and the
cookie-reuse path at a concrete fresh state never fills the email field. -/
theorem claim5_witness :
    (loginRun
        { email := "e", password := "p", headless := true, playwright := true,
          browser := true, context := true, page := true, logged_in := true,
          cookies_file := "c.json" }
        { check1 := true, waitLeaveLoginOk := true, urlAfterSubmit := "",
          emailCheckCount := 0, waitVerifyOk := true, check2 := true } =
      ([], Except.ok
        { email := "e", password := "p", headless := true, playwright := true,
          browser := true, context := true, page := true, logged_in := true,
          cookies_file := "c.json" })) ∧
    BrowserAction.fillEmail ∉
      (loginRun
        { email := "e", password := "p", headless := true, playwright := false,
          browser := false, context := false, page := false, logged_in := false,
          cookies_file := "c.json" }
        { check1 := true, waitLeaveLoginOk := true, urlAfterSubmit := "",
          emailCheckCount := 0, waitVerifyOk := true, check2 := true }).1 :=
  ⟨(claim5_login_noop_and_cookie_reuse _ _).1 rfl,
   ((claim5_login_noop_and_cookie_reuse _ _).2 rfl (fun hx => absurd hx (by decide)) rfl).2.1⟩

/-- C6: `_check_logged_in` is fail-closed — it returns true only when the
URL is neither a login nor a register URL, contains `/channels/@me`, and the
authenticated-only landmarks are present; any raising step yields false (the
function is total and never propagates). -/
theorem claim6_check_authenticated_fail_closed (page : Bool) (w : CheckWorld) :
    (checkLoggedInRun page w = true →
      strContains w.url "/login" = false ∧ strContains w.url "/register" = false ∧
      strContains w.url "/channels/@me" = true ∧ w.guildsNav = true ∧
      (w.userSettings = true ∨ w.dmTreeItems = true) ∧
      w.gotoRaises = false ∧ w.waitSelectorRaises = false ∧ w.innerRaises = false) ∧
    ((w.gotoRaises = true ∨ w.waitSelectorRaises = true ∨ w.innerRaises = true) →
      checkLoggedInRun page w = false) := by
  obtain ⟨gr, wr, url, ir, gn, us, dm⟩ := w
  cases page <;> cases gr <;> cases wr <;> cases ir <;> cases gn <;> cases us <;> cases dm <;>
    cases hlg : strContains url "/login" <;> cases hrg : strContains url "/register" <;>
      cases hme : strContains url "/channels/@me" <;>
        simp_all [checkLoggedInRun]

/-- C6 witness: a fully-authenticated page state passes the check (so the
URL facts hold there), and a goto exception forces a false result. -/
theorem claim6_witness :
    strContains "https://discord.com/channels/@me" "/channels/@me" = true ∧
    checkLoggedInRun true
      { gotoRaises := true, waitSelectorRaises := false,
        url := "https://discord.com/channels/@me", innerRaises := false,
        guildsNav := true, userSettings := true, dmTreeItems := true } = false :=
  ⟨((claim6_check_authenticated_fail_closed true
      { gotoRaises := false, waitSelectorRaises := false,
        url := "https://discord.com/channels/@me", innerRaises := false,
        guildsNav := true, userSettings := true, dmTreeItems := true }).1
      (by decide)).2.2.1,
   (claim6_check_authenticated_fail_closed true
      { gotoRaises := true, waitSelectorRaises := false,
        url := "https://discord.com/channels/@me", innerRaises := false,
        guildsNav := true, userSettings := true, dmTreeItems := true }).2
      (Or.inl rfl)⟩

/-- C7: the storage artifact is written if and only if a fresh,
credential-submitting login succeeds — never on the logged-in no-op path and
never on the cookie-reuse path. -/
theorem claim7_persist_iff_fresh_login (s : ClientStateM) (w : LoginWorld) :
    BrowserAction.saveStorage ∈ (loginRun s w).1 ↔
      (s.logged_in = false ∧ (s.playwright = true → s.page = true) ∧
       w.check1 = false ∧ w.waitLeaveLoginOk = true ∧
       (needsVerify w = true → w.waitVerifyOk = true) ∧ w.check2 = true) := by
  obtain ⟨em, pa, hd, pl, br, cx, pg, li, cf⟩ := s
  obtain ⟨c1, wl, url, ec, wv, c2⟩ := w
  cases hnv : needsVerify ⟨c1, wl, url, ec, wv, c2⟩ <;>
    cases li <;> cases pl <;> cases pg <;> cases c1 <;> cases wl <;> cases wv <;> cases c2 <;>
      simp_all [loginRun, ensureBrowserRun]

/-- C7 witness: at a concrete fresh-credential success the artifact write
occurs. -/
theorem claim7_witness :
    BrowserAction.saveStorage ∈
      (loginRun
        { email := "e", password := "p", headless := true, playwright := true,
          browser := true, context := true, page := true, logged_in := false,
          cookies_file := "c.json" }
        { check1 := false, waitLeaveLoginOk := true,
          urlAfterSubmit := "https://discord.com/channels/@me",
          emailCheckCount := 0, waitVerifyOk := true, check2 := true }).1 :=
  (claim7_persist_iff_fresh_login _ _).mpr
    ⟨rfl, fun _ => rfl, rfl, rfl, fun _ => rfl, rfl⟩

/-- C8 counterexample: client.py's `close_client` never attempts to close
the page handle — on a state holding every handle the trace is exactly
browser close then playwright stop. -/
theorem claim8_counterexample_page_never_closed :
    (closeClientRunCurrent
        { email := "e", password := "p", headless := true, playwright := true,
          browser := true, context := true, page := true, logged_in := true,
          cookies_file := "c.json" }
        { pageCloseRaises := false, contextCloseRaises := false,
          browserCloseRaises := false, playwrightStopRaises := false }).1 =
      [CloseEvent.closeBrowser, CloseEvent.stopPlaywright] ∧
    CloseEvent.closePage ∉
      (closeClientRunCurrent
        { email := "e", password := "p", headless := true, playwright := true,
          browser := true, context := true, page := true, logged_in := true,
          cookies_file := "c.json" }
        { pageCloseRaises := false, contextCloseRaises := false,
          browserCloseRaises := false, playwrightStopRaises := false }).1 := by
  constructor
  · rfl
  · decide

/-- C8 amended: `close_client` never raises and attempts every close even
when an earlier one fails; client.py closes the browser then stops the
playwright handle (the page is only torn down indirectly), while
client_backup.py closes page, context, browser, then playwright, in that
order. -/
theorem claim8_amended_best_effort_teardown (s : ClientStateM) (w : CloseWorld) :
    (closeClientRunCurrent s w).2 = Except.ok () ∧
    (closeClientRunBackup s w).2 = Except.ok () ∧
    (closeClientRunCurrent s w).1.Sublist
      [CloseEvent.closeBrowser, CloseEvent.stopPlaywright] ∧
    (closeClientRunBackup s w).1.Sublist
      [CloseEvent.closePage, CloseEvent.closeContext, CloseEvent.closeBrowser,
       CloseEvent.stopPlaywright] ∧
    (s.browser = true → CloseEvent.closeBrowser ∈ (closeClientRunCurrent s w).1) ∧
    (s.playwright = true → CloseEvent.stopPlaywright ∈ (closeClientRunCurrent s w).1) ∧
    (s.page = true → CloseEvent.closePage ∈ (closeClientRunBackup s w).1) ∧
    (s.context = true → CloseEvent.closeContext ∈ (closeClientRunBackup s w).1) ∧
    (s.browser = true → CloseEvent.closeBrowser ∈ (closeClientRunBackup s w).1) ∧
    (s.playwright = true → CloseEvent.stopPlaywright ∈ (closeClientRunBackup s w).1) := by
  obtain ⟨em, pa, hd, pl, br, cx, pg, li, cf⟩ := s
  cases pl <;> cases br <;> cases cx <;> cases pg <;>
    simp_all [closeClientRunCurrent, closeClientRunBackup, tryCloseStep, exceptPass,
      closeCall, Except.bind]

/-- C8 witness: with every handle present and every close raising, the later
steps are still attempted. -/
theorem claim8_witness :
    CloseEvent.stopPlaywright ∈
      (closeClientRunCurrent
        { email := "e", password := "p", headless := true, playwright := true,
          browser := true, context := true, page := true, logged_in := true,
          cookies_file := "c.json" }
        { pageCloseRaises := true, contextCloseRaises := true,
          browserCloseRaises := true, playwrightStopRaises := true }).1 ∧
    CloseEvent.closeContext ∈
      (closeClientRunBackup
        { email := "e", password := "p", headless := true, playwright := true,
          browser := true, context := true, page := true, logged_in := true,
          cookies_file := "c.json" }
        { pageCloseRaises := true, contextCloseRaises := true,
          browserCloseRaises := true, playwrightStopRaises := true }).1 :=
  ⟨(claim8_amended_best_effort_teardown _ _).2.2.2.2.2.1 rfl,
   (claim8_amended_best_effort_teardown _ _).2.2.2.2.2.2.2.1 rfl⟩

/-- C9 counterexample: client.py's `get_guild_channels` drops a matched
anchor whose cleaned visible text is empty instead of synthesizing the
`channel-<id>` fallback: the anchor for channel `"555"` (text `"!!!"`, which
cleans to `""`) yields no channel at all. -/
theorem claim9_counterexample_empty_name_dropped :
    matchChannelsUrl "https://discord.com/channels/123/555" = some ("123", "555") ∧
    cleanChannelName (some "!!!") = "" ∧
    ¬ ∃ c ∈ getGuildChannelsCurrent "123" "https://discord.com/channels/123" "general"
        [{ href := "https://discord.com/channels/123/555", text := some "!!!" }],
        c.id = "555" := by
  refine ⟨by decide, by decide, ?_⟩
  decide

/-- C9 amended: in client_backup.py's `get_guild_channels` no matched anchor
is dropped — every channel id matched in either scan appears in the result —
and each scanned record's name comes from a matching anchor: the cleaned
visible text, or `channel-<id>` when that text is empty.  (client.py instead
returns a channel only when the cleaned text is nonempty; see the
counterexample.) -/
theorem claim9_amended_backup_never_drops :
    (∀ (g : String) (origA browseA : List Anchor) (cid : String),
      (∃ aa ∈ origA ++ browseA, matchChannelsUrl aa.href = some (g, cid)) →
      cid ∈ (getGuildChannelsBackup g origA browseA).map (fun c => c.id)) ∧
    (∀ (g : String) (anchors : List Anchor) (cd : ChannelData),
      cd ∈ scanAnchorsBackup g anchors [] →
      ∃ aa ∈ anchors, matchChannelsUrl aa.href = some (g, cd.id) ∧
        cd.name = (if cleanChannelName aa.text = "" then "channel-" ++ cd.id
                   else cleanChannelName aa.text)) := by
  constructor
  · intro g origA browseA cid h
    rcases h with ⟨aa, haa, hm⟩
    unfold getGuildChannelsBackup
    rw [List.map_map]
    have hcomp :
        ((fun c : DiscordChannel => c.id) ∘
          (fun cd : ChannelData =>
            ({ id := cd.id, name := cd.name, type := 0, guild_id := some g } :
              DiscordChannel))) =
          (fun cd : ChannelData => cd.id) := rfl
    rw [hcomp, List.map_append]
    rcases List.mem_append.mp haa with horig | hbrowse
    · rcases scanAnchorsBackup_mem_of_matched g origA [] cid ⟨aa, horig, hm⟩ with hin | habs
      · exact List.mem_append.mpr (Or.inl hin)
      · exact absurd habs (List.not_mem_nil cid)
    · by_cases hin : cid ∈ (scanAnchorsBackup g origA []).map (fun cd => cd.id)
      · exact List.mem_append.mpr (Or.inl hin)
      · rcases scanAnchorsBackup_mem_of_matched g browseA [] cid ⟨aa, hbrowse, hm⟩ with hbin | habs
        · rcases List.mem_map.mp hbin with ⟨cd, hcd, hcdid⟩
          refine List.mem_append.mpr (Or.inr ?_)
          refine List.mem_map.mpr ⟨cd, ?_, hcdid⟩
          refine List.mem_filter.mpr ⟨hcd, ?_⟩
          exact decide_eq_true (by rw [hcdid]; exact hin)
        · exact absurd habs (List.not_mem_nil cid)
  · intro g anchors cd h
    exact scanAnchorsBackup_names g anchors [] cd h

/-- C9 witness: the concrete empty-text anchor for channel `"555"` is kept
by the backup implementation. -/
theorem claim9_witness :
    "555" ∈ (getGuildChannelsBackup "123"
        [{ href := "https://discord.com/channels/123/555", text := some "!!!" }] []).map
      (fun c => c.id) :=
  claim9_amended_backup_never_drops.1 "123"
    [{ href := "https://discord.com/channels/123/555", text := some "!!!" }] [] "555"
    ⟨{ href := "https://discord.com/channels/123/555", text := some "!!!" },
     by decide, by decide⟩

end DiscordMCP
